import Mathlib

/-!
Shallow embedding of the validation orchestration engine of the OCR
string-validation tool (src/validation_engine.py, src/models.py,
src/data_loaders.py), together with proofs of the specification's claims
about it.

Modelling conventions:
* Python floats (confidence values, elapsed milliseconds) are modelled as
  rationals (`ℚ`); the engine only moves these values around (`min`,
  sums, means), so the claims are insensitive to the carrier.
* Python dicts are modelled as association lists with a lookup that
  returns the first matching key; inserts overwrite in place, matching
  dict semantics (unique keys, insertion order preserved).
* The external collaborators (filesystem, OCR engine, string matcher,
  wall clock) are modelled as an explicit `World` of oracle functions.
* Fallible Python code (`raise`) is modelled with `Except String`.
-/

namespace OCRVal

/-- The `MatchResult` enumeration of src/models.py (five-way closed result
taxonomy). -/
inductive MatchResult where
  | PASS
  | FAIL
  | ERROR
  | MISSING_IMAGE
  | MISSING_COORDINATES
  deriving DecidableEq, Repr

/-- The `Coordinate` dataclass of src/models.py: an axis-aligned bounding
box given by `left, top, right, bottom` in pixel space. -/
structure Coordinate where
  left : Int
  top : Int
  right : Int
  bottom : Int
  deriving DecidableEq, Repr

/-- The `TestStep` dataclass of src/models.py. -/
structure TestStep where
  step_id : String
  screen_id : String
  expected_string_id : String
  deriving DecidableEq, Repr

/-- `TestStep.coordinate_key`: the composite lookup key
`(step_id, screen_id, expected_string_id)`. -/
def TestStep.coordinate_key (s : TestStep) : String × String × String :=
  (s.step_id, s.screen_id, s.expected_string_id)

/-- The `ValidationResult` dataclass of src/models.py.  The three optional
fields default to `None` exactly as in the dataclass. -/
structure ValidationResult where
  step : TestStep
  expected_text : String
  ocr_output : String
  match_result : MatchResult
  confidence_score : Option ℚ := none
  processing_time_ms : Option ℚ := none
  error_message : Option String := none
  deriving DecidableEq, Repr

/-- The fields of `ValidationConfig` (src/models.py) that the validation
engine reads.  Path-valued fields are modelled as strings. -/
structure ValidationConfig where
  data_dir : String := "./data"
  language : String := "en-US"
  tesseract_config : String := ""
  fuzzy_matching_threshold : ℚ := 8/10
  enable_preprocessing : Bool := true
  deriving DecidableEq, Repr

/-- `ValidationConfig.screenshot_dir`: `data_dir / "screenshots"`. -/
def screenshot_dir (cfg : ValidationConfig) : String :=
  cfg.data_dir ++ "/screenshots"

/-- The screenshot path convention of `_validate_step`
(src/validation_engine.py line 239): `<screenshot-dir>/<screen_id>.png`. -/
def image_path (cfg : ValidationConfig) (step : TestStep) : String :=
  screenshot_dir cfg ++ "/" ++ step.screen_id ++ ".png"

/-- The `OCRConfig` dataclass of src/models.py with its defaults. -/
structure OCRConfig where
  language : String := "eng"
  config : String := "--psm 8"
  preprocessing_enabled : Bool := true
  dpi : Nat := 300
  deriving DecidableEq, Repr

/-- Models Python `c in s` for a one-character needle: character
membership. -/
def str_contains (s : String) (c : Char) : Bool := s.data.contains c

/-- Models Python `s.split(c)[0]`: the prefix of `s` before the first
occurrence of `c`, the whole string when `c` does not occur. -/
def split_head (s : String) (c : Char) : String :=
  ⟨s.data.takeWhile (fun ch => ch != c)⟩

/-- The per-invocation OCR configuration built in
`_extract_text_from_region` (src/validation_engine.py lines 317-321):
`language = config.language.split('-')[0] if '-' in config.language else
'eng'`, `config = config.tesseract_config or "--psm 8"`,
`preprocessing_enabled = config.enable_preprocessing`. -/
def mk_ocr_config (cfg : ValidationConfig) : OCRConfig :=
  { language :=
      if str_contains cfg.language '-' then split_head cfg.language '-'
      else "eng"
    config := if cfg.tesseract_config = "" then "--psm 8" else cfg.tesseract_config
    preprocessing_enabled := cfg.enable_preprocessing }

/-- Association-list lookup modelling Python `dict.get`: returns the value
at the first matching key, `none` when absent. -/
def dict_lookup {α β : Type} [DecidableEq α] (k : α) : List (α × β) → Option β
  | [] => none
  | (k', v) :: rest => if k' = k then some v else dict_lookup k rest

/-- Association-list insert modelling Python `dict[k] = v`: overwrites the
existing entry in place, otherwise appends. -/
def dict_insert {α β : Type} [DecidableEq α] (m : List (α × β)) (k : α) (v : β) :
    List (α × β) :=
  match m with
  | [] => [(k, v)]
  | (k', v') :: rest =>
      if k' = k then (k, v) :: rest else (k', v') :: dict_insert rest k v

/-- The three correlated tables cached by the engine for the duration of
one run (`_test_steps`, `_expected_strings`, `_coordinates`). -/
structure LoadedData where
  test_steps : List TestStep
  expected_strings : List (String × String)
  coordinates : List ((String × String × String) × Coordinate)

/-- One invocation of the text extractor: records the OCR configuration,
the image path and the cropped region it was called with.  The engine
reaches this call only after the expected text resolved, the screenshot
file existed and the coordinate lookup succeeded. -/
structure ExtractCall where
  ocr_config : OCRConfig
  path : String
  region : Coordinate
  deriving DecidableEq, Repr

/-- The engine's external collaborators and environment, as oracle
functions:
* `image_exists` models `Path.exists` on the screenshot path;
* `extract` models opening + cropping the image and calling
  `ocr_engine.extract_text_with_confidence` (an `Except.error` models any
  exception raised while opening, decoding or running OCR);
* `matcher` models `string_matcher.match` (boolean match + confidence);
* `elapsed` models the milliseconds read from the wall clock for a step
  (`(time.time() - start_time) * 1000`);
* `unexpected` models an unexpected exception escaping `_validate_step`
  itself for a given step (`some msg` = an exception with message `msg`
  reaches the per-step wrapper of `validate_all`, lines 175-188). -/
structure World where
  image_exists : String → Bool
  extract : OCRConfig → String → Coordinate → Except String (String × ℚ)
  matcher : String → String → Bool × ℚ
  elapsed : TestStep → ℚ
  unexpected : TestStep → Option String

/-- `_extract_text_from_region` (src/validation_engine.py lines 296-329):
builds the per-invocation OCR configuration, invokes the extractor, and
wraps any failure into an `OCRError` whose message prefixes the underlying
message with `"Failed to extract text from region: "`.  The second
component is the trace of extractor invocations made. -/
def extract_text_from_region (cfg : ValidationConfig) (w : World)
    (path : String) (region : Coordinate) :
    Except String (String × ℚ) × List ExtractCall :=
  let ocr_config := mk_ocr_config cfg
  match w.extract ocr_config path region with
  | Except.ok r => (Except.ok r, [⟨ocr_config, path, region⟩])
  | Except.error e =>
      (Except.error ("Failed to extract text from region: " ++ e),
       [⟨ocr_config, path, region⟩])

/-- `_validate_step` (src/validation_engine.py lines 214-294).  Returns the
`ValidationResult` together with the trace of extractor invocations made
while validating this step.

Branches, in source order:
1. expected text absent or empty (`.get(id, "")` falsy) → `ERROR`, message
   naming the identifier, no timing, no confidence, no extraction;
2. screenshot file absent → `MISSING_IMAGE`, expected text populated, no
   extraction;
3. coordinate key absent → `MISSING_COORDINATES`, no extraction;
4. extraction raises → caught by the enclosing handler (lines 283-294):
   `ERROR` with the elapsed milliseconds, the exception's message, and the
   already-resolved expected text;
5. otherwise → `PASS`/`FAIL` by the matcher verdict, confidence
   `min(ocr_confidence, match_confidence)`, elapsed milliseconds. -/
def validate_step (cfg : ValidationConfig) (data : LoadedData) (w : World)
    (step : TestStep) : ValidationResult × List ExtractCall :=
  let expected_text := (dict_lookup step.expected_string_id data.expected_strings).getD ""
  if expected_text = "" then
    ({ step := step, expected_text := "", ocr_output := ""
       match_result := MatchResult.ERROR
       error_message := some ("Expected string not found: " ++ step.expected_string_id) },
     [])
  else
    let path := image_path cfg step
    if w.image_exists path = false then
      ({ step := step, expected_text := expected_text, ocr_output := ""
         match_result := MatchResult.MISSING_IMAGE
         error_message := some ("Image not found: " ++ path) }, [])
    else
      match dict_lookup step.coordinate_key data.coordinates with
      | none =>
          ({ step := step, expected_text := expected_text, ocr_output := ""
             match_result := MatchResult.MISSING_COORDINATES
             error_message := some ("Coordinates not found for: (" ++ step.step_id ++
               ", " ++ step.screen_id ++ ", " ++ step.expected_string_id ++ ")") }, [])
      | some region =>
          match extract_text_from_region cfg w path region with
          | (Except.error msg, calls) =>
              ({ step := step, expected_text := expected_text, ocr_output := ""
                 match_result := MatchResult.ERROR
                 processing_time_ms := some (w.elapsed step)
                 error_message := some msg }, calls)
          | (Except.ok (ocr_output, ocr_confidence), calls) =>
              let verdict := w.matcher expected_text ocr_output
              ({ step := step, expected_text := expected_text, ocr_output := ocr_output
                 match_result := if verdict.1 then MatchResult.PASS else MatchResult.FAIL
                 confidence_score := some (min ocr_confidence verdict.2)
                 processing_time_ms := some (w.elapsed step) }, calls)

/-- The injected dataset loader, as the outcomes of its three load calls
(each `Except.error` models a raised `DataLoadError` with that message). -/
structure Loader where
  load_test_protocol : Except String (List TestStep)
  load_expected_strings : Except String (List (String × String))
  load_coordinates : Except String (List ((String × String × String) × Coordinate))

/-- The engine's cached-dataset attributes (`_test_steps`,
`_expected_strings`, `_coordinates`), all `None` before and after a run. -/
structure EngineCache where
  test_steps : Option (List TestStep) := none
  expected_strings : Option (List (String × String)) := none
  coordinates : Option (List ((String × String × String) × Coordinate)) := none
  deriving DecidableEq

/-- The cache state with all three attributes cleared. -/
def empty_cache : EngineCache := {}

/-- The `finally` clause of `_load_data` (src/validation_engine.py lines
145-149): unconditionally resets all three cached datasets to `None`. -/
def clear_cache (_ : EngineCache) : EngineCache := empty_cache

/-- The `_load_data` context manager (src/validation_engine.py lines
118-149) run around a body: the three tables are loaded in order into the
cache; any exception — from a load or thrown into the generator by a
failing body — is re-raised as `ValidationError("Data loading failed: …")`;
the `finally` clause clears the cache on every exit path.  Returns the
overall outcome and the final cache state. -/
def load_data_and_run (loader : Loader)
    (body : LoadedData → Except String (List ValidationResult)) :
    Except String (List ValidationResult) × EngineCache :=
  match loader.load_test_protocol with
  | Except.error e =>
      (Except.error ("Data loading failed: " ++ e), clear_cache {})
  | Except.ok steps =>
      match loader.load_expected_strings with
      | Except.error e =>
          (Except.error ("Data loading failed: " ++ e),
           clear_cache { test_steps := some steps })
      | Except.ok strs =>
          match loader.load_coordinates with
          | Except.error e =>
              (Except.error ("Data loading failed: " ++ e),
               clear_cache { test_steps := some steps, expected_strings := some strs })
          | Except.ok coords =>
              match body ⟨steps, strs, coords⟩ with
              | Except.error e =>
                  (Except.error ("Data loading failed: " ++ e),
                   clear_cache { test_steps := some steps, expected_strings := some strs
                                 coordinates := some coords })
              | Except.ok rs =>
                  (Except.ok rs,
                   clear_cache { test_steps := some steps, expected_strings := some strs
                                 coordinates := some coords })

/-- The per-step wrapper inside the `validate_all` loop
(src/validation_engine.py lines 169-188): if validating the step raises an
unexpected exception, a synthetic `ERROR` result with empty texts and the
exception's message is appended instead, and the loop continues. -/
def validate_all_step (cfg : ValidationConfig) (data : LoadedData) (w : World)
    (step : TestStep) : ValidationResult :=
  match w.unexpected step with
  | some msg =>
      { step := step, expected_text := "", ocr_output := ""
        match_result := MatchResult.ERROR, error_message := some msg }
  | none => (validate_step cfg data w step).1

/-- The body of `validate_all` (src/validation_engine.py lines 161-196)
given loaded data: raises `"No test steps loaded"` on an empty step list,
otherwise produces one result per step in load order. -/
def validate_all_body (cfg : ValidationConfig) (w : World) (data : LoadedData) :
    Except String (List ValidationResult) :=
  if data.test_steps.isEmpty then Except.error "No test steps loaded"
  else Except.ok (data.test_steps.map (validate_all_step cfg data w))

/-- `validate_all` (src/validation_engine.py lines 151-196): runs the body
under the `_load_data` context manager.  Returns the outcome (result list
or error) and the final cache state. -/
def validate_all (cfg : ValidationConfig) (loader : Loader) (w : World) :
    Except String (List ValidationResult) × EngineCache :=
  load_data_and_run loader (validate_all_body cfg w)

/-- The summary record returned by `get_validation_summary`
(src/validation_engine.py lines 331-384). -/
structure ValidationSummary where
  total_steps : Nat
  passed : Nat
  failed : Nat
  errors : Nat
  missing_images : Nat
  missing_coordinates : Nat
  pass_rate : ℚ
  average_confidence : ℚ
  average_processing_time_ms : ℚ
  deriving DecidableEq, Repr

/-- `get_validation_summary` (src/validation_engine.py lines 331-384):
counts per classification, pass rate `passed / total * 100`, mean
confidence over results carrying a confidence value, mean processing time
over results carrying a timing value; all-zero record for an empty list. -/
def get_validation_summary (results : List ValidationResult) : ValidationSummary :=
  if results.isEmpty then
    { total_steps := 0, passed := 0, failed := 0, errors := 0
      missing_images := 0, missing_coordinates := 0
      pass_rate := 0, average_confidence := 0, average_processing_time_ms := 0 }
  else
    let passed := results.countP (fun r => r.match_result == MatchResult.PASS)
    let failed := results.countP (fun r => r.match_result == MatchResult.FAIL)
    let errors := results.countP (fun r => r.match_result == MatchResult.ERROR)
    let missing_images :=
      results.countP (fun r => r.match_result == MatchResult.MISSING_IMAGE)
    let missing_coordinates :=
      results.countP (fun r => r.match_result == MatchResult.MISSING_COORDINATES)
    let valid_results := results.filterMap (fun r => r.confidence_score)
    let avg_confidence :=
      if valid_results.isEmpty then 0 else valid_results.sum / valid_results.length
    let timed_results := results.filterMap (fun r => r.processing_time_ms)
    let avg_time :=
      if timed_results.isEmpty then 0 else timed_results.sum / timed_results.length
    { total_steps := results.length, passed := passed, failed := failed
      errors := errors, missing_images := missing_images
      missing_coordinates := missing_coordinates
      pass_rate := (passed : ℚ) / (results.length : ℚ) * 100
      average_confidence := avg_confidence
      average_processing_time_ms := avg_time }

/-- One raw CSV row of the coordinate table (string-valued cells under the
seven required columns of `load_coordinates`). -/
structure CoordRow where
  StepID : String
  ScreenID : String
  ExpectedStringID : String
  Left : String
  Top : String
  Right : String
  Bottom : String
  deriving DecidableEq, Repr

/-- Models Python `s.strip()`: surrounding whitespace removed. -/
def py_strip (s : String) : String :=
  ⟨((s.data.dropWhile (fun ch => ch.isWhitespace)).reverse.dropWhile
      (fun ch => ch.isWhitespace)).reverse⟩

/-- Decimal digit parsing for `py_int`: all characters must be digits and
at least one must be present. -/
def digits_to_nat (l : List Char) : Option Nat :=
  if l = [] then none
  else if l.all (fun ch => ch.isDigit) then
    some (l.foldl (fun n ch => 10 * n + (ch.toNat - 48)) 0)
  else none

/-- Models Python `int(s)` on a CSV cell: surrounding whitespace is
ignored, then an optionally signed decimal integer is parsed; `none`
models a raised `ValueError`. -/
def py_int (s : String) : Option Int :=
  match (py_strip s).data with
  | '-' :: rest => (digits_to_nat rest).map (fun n => -(n : Int))
  | '+' :: rest => (digits_to_nat rest).map (fun n => (n : Int))
  | t => (digits_to_nat t).map (fun n => (n : Int))

/-- The per-row logic of `CSVDataLoader.load_coordinates`
(src/data_loaders.py lines 160-198): `none` models a skipped row
(missing required data, unparseable integers, out-of-order bounds
`left ≥ right` or `top ≥ bottom`, or a negative value); otherwise the
stripped composite key and the parsed `Coordinate`. -/
def parse_coordinate_row (row : CoordRow) : Option ((String × String × String) × Coordinate) :=
  if py_strip row.StepID = "" ∨ py_strip row.ScreenID = "" ∨
      py_strip row.ExpectedStringID = "" ∨ py_strip row.Left = "" ∨
      py_strip row.Top = "" ∨ py_strip row.Right = "" ∨
      py_strip row.Bottom = "" then
    none
  else
    match py_int row.Left, py_int row.Top, py_int row.Right, py_int row.Bottom with
    | some l, some t, some r, some b =>
        if r ≤ l ∨ b ≤ t then none
        else if l < 0 ∨ t < 0 ∨ r < 0 ∨ b < 0 then none
        else some ((py_strip row.StepID, py_strip row.ScreenID,
                    py_strip row.ExpectedStringID), ⟨l, t, r, b⟩)
    | _, _, _, _ => none

/-- One iteration of the row loop of `CSVDataLoader.load_coordinates`:
a skipped row leaves the index unchanged, a valid row is inserted
(overwriting any earlier entry under the same key). -/
def coord_fold_step (acc : List ((String × String × String) × Coordinate))
    (row : CoordRow) : List ((String × String × String) × Coordinate) :=
  match parse_coordinate_row row with
  | none => acc
  | some (key, c) => dict_insert acc key c

/-- `CSVDataLoader.load_coordinates` (src/data_loaders.py lines 126-213)
over its parsed rows: valid rows are inserted into the index in order
(a duplicate key only logs a warning and overwrites); the load fails with
`DataLoadError` only when no valid entry remains. -/
def load_coordinates (rows : List CoordRow) :
    Except String (List ((String × String × String) × Coordinate)) :=
  let coordinates := rows.foldl coord_fold_step []
  if coordinates.isEmpty then Except.error "No valid coordinates found in file"
  else Except.ok coordinates

/-- `primary_subtag`, modelled from the spec's words: the primary subtag
of a locale tag, "e.g. \"en\" from \"en-US\"" — the part before the first
hyphen, the whole tag when it has none.  Used only to compare the spec's
claimed OCR base language against the code's. -/
def primary_subtag (tag : String) : String :=
  ⟨tag.data.takeWhile (fun ch => ch != '-')⟩

/-! Concrete scenario inputs used by the witness theorems. -/

/-- A concrete configuration: default options, data under `"d"`. -/
def wit_cfg : ValidationConfig := { data_dir := "d" }

/-- The same configuration with the hyphen-less locale tag `"fr"`. -/
def wit_cfg_fr : ValidationConfig := { data_dir := "d", language := "fr" }

/-- A concrete test step. -/
def wit_step : TestStep := ⟨"s1", "scr", "g"⟩

/-- A step whose expected-string id is absent from the map. -/
def wit_step_missing : TestStep := ⟨"s2", "scr", "nope"⟩

/-- A concrete expected-strings map. -/
def wit_strings : List (String × String) := [("g", "Hello")]

/-- A concrete bounding box. -/
def wit_box : Coordinate := ⟨0, 0, 10, 10⟩

/-- A concrete coordinate index covering `wit_step`. -/
def wit_coords : List ((String × String × String) × Coordinate) :=
  [(("s1", "scr", "g"), wit_box)]

/-- Loaded data for the happy path. -/
def wit_data : LoadedData := ⟨[wit_step], wit_strings, wit_coords⟩

/-- Loaded data with an empty coordinate index. -/
def wit_data_nocoord : LoadedData := ⟨[wit_step], wit_strings, []⟩

/-- A well-behaved world: every screenshot exists, extraction returns
`("Hello", 0.95)`, the matcher is case-sensitive equality with
confidence 1, every step takes 5 ms, nothing raises unexpectedly. -/
def wit_world : World :=
  { image_exists := fun _ => true
    extract := fun _ _ _ => Except.ok ("Hello", 19/20)
    matcher := fun e a => (e == a, 1)
    elapsed := fun _ => 5
    unexpected := fun _ => none }

/-- The same world with no screenshot file present. -/
def wit_world_noimg : World :=
  { wit_world with image_exists := fun _ => false }

/-- The same world whose extractor always raises with message `"boom"`. -/
def wit_world_failext : World :=
  { wit_world with extract := fun _ _ _ => Except.error "boom" }

/-- A loader that loads all three tables successfully. -/
def wit_loader : Loader :=
  { load_test_protocol := Except.ok [wit_step]
    load_expected_strings := Except.ok wit_strings
    load_coordinates := Except.ok wit_coords }

/-- A loader whose protocol load raises a `DataLoadError`. -/
def wit_loader_bad : Loader :=
  { wit_loader with load_test_protocol := Except.error "missing" }

/-- The extractor invocation produced by the happy path under `wit_cfg`
(locale `"en-US"`, so OCR language `"en"`). -/
def wit_call : ExtractCall :=
  ⟨⟨"en", "--psm 8", true, 300⟩, "d/screenshots/scr.png", wit_box⟩

/-- A couple of hand-written results for exercising the summary: one
`PASS` carrying confidence and timing, one `ERROR` carrying neither. -/
def wit_results : List ValidationResult :=
  [{ step := wit_step, expected_text := "Hello", ocr_output := "Hello"
     match_result := MatchResult.PASS
     confidence_score := some (19/20), processing_time_ms := some 5 },
   { step := wit_step_missing, expected_text := "", ocr_output := ""
     match_result := MatchResult.ERROR
     error_message := some "Expected string not found: nope" }]

/-- Two coordinate rows sharing one composite key with different boxes. -/
def wit_row1 : CoordRow := ⟨"a", "b", "c", "0", "0", "10", "10"⟩

/-- The later duplicate of `wit_row1`'s key, with a different box. -/
def wit_row2 : CoordRow := ⟨"a", "b", "c", "1", "1", "5", "5"⟩

/-! Helper lemmas shared by the claim theorems. -/

/-- Every branch of the per-step algorithm returns a result whose `step`
field is the input step. -/
theorem validate_step_result_step (cfg : ValidationConfig) (data : LoadedData)
    (w : World) (step : TestStep) :
    ((validate_step cfg data w step).1).step = step := by
  simp only [validate_step]
  repeat' split
  all_goals rfl

/-- The per-step wrapper also always returns a result for the input step. -/
theorem validate_all_step_result_step (cfg : ValidationConfig) (data : LoadedData)
    (w : World) (step : TestStep) :
    (validate_all_step cfg data w step).step = step := by
  unfold validate_all_step
  split
  · rfl
  · exact validate_step_result_step cfg data w step

/-- C1: for every step list that loads successfully, `validate_all`
returns exactly one `ValidationResult` per input step, in the same order
as the loaded step list, regardless of classification or unexpected
per-step exceptions.  (The loaders never return an empty step list — they
raise `DataLoadError` instead — which the hypothesis `hne` reflects.) -/
theorem validate_all_completeness (cfg : ValidationConfig) (loader : Loader)
    (w : World) (steps : List TestStep) (strs : List (String × String))
    (coords : List ((String × String × String) × Coordinate))
    (hp : loader.load_test_protocol = Except.ok steps)
    (hs : loader.load_expected_strings = Except.ok strs)
    (hc : loader.load_coordinates = Except.ok coords)
    (hne : steps ≠ []) :
    ((validate_all cfg loader w).1).map (fun rs => rs.map (fun r => r.step)) =
      Except.ok steps := by
  have hEmp : steps.isEmpty = false := by
    cases steps with
    | nil => exact absurd rfl hne
    | cons a l => rfl
  simp [validate_all, load_data_and_run, hp, hs, hc, validate_all_body, hEmp,
    Except.map, List.map_map, Function.comp_def, validate_all_step_result_step]

/-- Witness for C1: the one-step happy-path run returns exactly the input
step list. -/
theorem validate_all_completeness_witness :
    ((validate_all wit_cfg wit_loader wit_world).1).map
        (fun rs => rs.map (fun r => r.step)) = Except.ok [wit_step] :=
  validate_all_completeness wit_cfg wit_loader wit_world [wit_step] wit_strings
    wit_coords rfl rfl rfl (List.cons_ne_nil wit_step [])

/-- C2: a step whose expected-string id is absent from the map, or maps to
the empty string, yields classification `ERROR` with a message naming the
identifier, and the extractor is never invoked for that step. -/
theorem expected_string_short_circuit (cfg : ValidationConfig) (data : LoadedData)
    (w : World) (step : TestStep)
    (h : dict_lookup step.expected_string_id data.expected_strings = none ∨
         dict_lookup step.expected_string_id data.expected_strings = some "") :
    (validate_step cfg data w step).1.match_result = MatchResult.ERROR ∧
    (validate_step cfg data w step).1.error_message =
      some ("Expected string not found: " ++ step.expected_string_id) ∧
    (validate_step cfg data w step).2 = [] := by
  have hgd : (dict_lookup step.expected_string_id data.expected_strings).getD "" = "" := by
    rcases h with h | h <;> simp [h]
  simp [validate_step, hgd]

/-- Witness for C2: the step with the unknown id `"nope"` errors with a
message naming it and produces no extractor invocation. -/
theorem expected_string_short_circuit_witness :
    (validate_step wit_cfg wit_data wit_world wit_step_missing).1.match_result =
        MatchResult.ERROR ∧
    (validate_step wit_cfg wit_data wit_world wit_step_missing).1.error_message =
      some ("Expected string not found: " ++ wit_step_missing.expected_string_id) ∧
    (validate_step wit_cfg wit_data wit_world wit_step_missing).2 = [] :=
  expected_string_short_circuit wit_cfg wit_data wit_world wit_step_missing
    (Or.inl (by decide))

/-- A string append with a non-empty left part is non-empty. -/
theorem append_ne_empty_left (a b : String) (ha : a ≠ "") : a ++ b ≠ "" := by
  intro h
  apply ha
  have hlen := congrArg String.length h
  rw [String.length_append] at hlen
  have h0 : ("" : String).length = 0 := rfl
  have ha0 : a.length = 0 := by omega
  cases a with
  | mk d =>
    have hd : d = [] := List.length_eq_zero.mp ha0
    subst hd
    rfl

/-- A string append with a non-empty right part is non-empty. -/
theorem append_ne_empty_right (a b : String) (hb : b ≠ "") : a ++ b ≠ "" := by
  intro h
  apply hb
  have hlen := congrArg String.length h
  rw [String.length_append] at hlen
  have h0 : ("" : String).length = 0 := rfl
  have hb0 : b.length = 0 := by omega
  cases b with
  | mk d =>
    have hd : d = [] := List.length_eq_zero.mp hb0
    subst hd
    rfl

/-- The missing-expected-string error message is never empty. -/
theorem expected_msg_ne_empty (s : String) :
    ("Expected string not found: " ++ s) ≠ "" :=
  append_ne_empty_left _ _ (by decide)

/-- The missing-image error message is never empty. -/
theorem image_msg_ne_empty (s : String) : ("Image not found: " ++ s) ≠ "" :=
  append_ne_empty_left _ _ (by decide)

/-- The missing-coordinates error message is never empty (it ends in a
closing parenthesis). -/
theorem coord_msg_ne_empty (a : String) : (a ++ ")") ≠ "" :=
  append_ne_empty_right _ _ (by decide)

/-- C3: with resolvable expected text, an absent screenshot file yields
`MISSING_IMAGE` (expected text populated, no extracted text) even when a
coordinate entry exists for the composite key, and an existing screenshot
with no coordinate entry yields `MISSING_COORDINATES`; neither case
invokes the extractor. -/
theorem missing_image_and_coordinate_precedence (cfg : ValidationConfig)
    (data : LoadedData) (w : World) (step : TestStep) (expected : String)
    (hexp : (dict_lookup step.expected_string_id data.expected_strings).getD "" =
      expected)
    (hne : expected ≠ "") :
    (w.image_exists (image_path cfg step) = false →
      (validate_step cfg data w step).1.match_result = MatchResult.MISSING_IMAGE ∧
      (validate_step cfg data w step).1.expected_text = expected ∧
      (validate_step cfg data w step).1.ocr_output = "" ∧
      (validate_step cfg data w step).2 = []) ∧
    (w.image_exists (image_path cfg step) = true →
      dict_lookup step.coordinate_key data.coordinates = none →
      (validate_step cfg data w step).1.match_result =
        MatchResult.MISSING_COORDINATES ∧
      (validate_step cfg data w step).2 = []) := by
  subst hexp
  constructor
  · intro himg
    simp [validate_step, hne, himg]
  · intro himg hcoord
    simp [validate_step, hne, himg, hcoord]

/-- Witness for C3: the two concrete scenarios — screenshot absent though
a coordinate entry exists, and screenshot present with an empty coordinate
index. -/
theorem missing_image_and_coordinate_precedence_witness :
    (validate_step wit_cfg wit_data wit_world_noimg wit_step).1.match_result =
        MatchResult.MISSING_IMAGE ∧
    (validate_step wit_cfg wit_data wit_world_noimg wit_step).1.expected_text =
        "Hello" ∧
    (validate_step wit_cfg wit_data wit_world_noimg wit_step).1.ocr_output = "" ∧
    (validate_step wit_cfg wit_data wit_world_noimg wit_step).2 = [] ∧
    (validate_step wit_cfg wit_data_nocoord wit_world wit_step).1.match_result =
        MatchResult.MISSING_COORDINATES ∧
    (validate_step wit_cfg wit_data_nocoord wit_world wit_step).2 = [] := by
  have h1 := missing_image_and_coordinate_precedence wit_cfg wit_data
    wit_world_noimg wit_step "Hello" rfl (by decide)
  have h2 := missing_image_and_coordinate_precedence wit_cfg wit_data_nocoord
    wit_world wit_step "Hello" rfl (by decide)
  obtain ⟨ha, hb, hc, hd⟩ := h1.1 rfl
  obtain ⟨he, hf⟩ := h2.2 rfl rfl
  exact ⟨ha, hb, hc, hd, he, hf⟩

/-- C4: a step that reaches extraction and comparison without error gets
combined confidence exactly `min e c`, and is classified `PASS` exactly
when the injected comparator reported a match, `FAIL` otherwise. -/
theorem confidence_conjunction_and_classification (cfg : ValidationConfig)
    (data : LoadedData) (w : World) (step : TestStep) (expected : String)
    (region : Coordinate) (txt : String) (e c : ℚ) (m : Bool)
    (hexp : (dict_lookup step.expected_string_id data.expected_strings).getD "" =
      expected)
    (hne : expected ≠ "")
    (himg : w.image_exists (image_path cfg step) = true)
    (hcoord : dict_lookup step.coordinate_key data.coordinates = some region)
    (hex : w.extract (mk_ocr_config cfg) (image_path cfg step) region =
      Except.ok (txt, e))
    (hm : w.matcher expected txt = (m, c))
    (he0 : 0 ≤ e) (he1 : e ≤ 1) (hc0 : 0 ≤ c) (hc1 : c ≤ 1) :
    (validate_step cfg data w step).1.confidence_score = some (min e c) ∧
    ((validate_step cfg data w step).1.match_result = MatchResult.PASS ↔
      m = true) ∧
    ((validate_step cfg data w step).1.match_result = MatchResult.FAIL ↔
      m = false) := by
  subst hexp
  simp only [validate_step, extract_text_from_region, hne, himg, hcoord, hex, hm]
  cases m <;> simp

/-- Witness for C4: extraction confidence `0.95`, comparison match with
confidence `1`; the step passes with combined confidence
`min 0.95 1`. -/
theorem confidence_conjunction_and_classification_witness :
    (validate_step wit_cfg wit_data wit_world wit_step).1.confidence_score =
        some (min (19/20 : ℚ) 1) ∧
    ((validate_step wit_cfg wit_data wit_world wit_step).1.match_result =
        MatchResult.PASS ↔ (true : Bool) = true) ∧
    ((validate_step wit_cfg wit_data wit_world wit_step).1.match_result =
        MatchResult.FAIL ↔ (true : Bool) = false) :=
  confidence_conjunction_and_classification wit_cfg wit_data wit_world wit_step
    "Hello" wit_box "Hello" (19/20) 1 true rfl (by decide) rfl rfl rfl rfl
    (by norm_num) (by norm_num) (by norm_num) (by norm_num)

/-- C10: every per-step result satisfies the field-presence invariant:
`PASS`/`FAIL` carry both confidence and timing; `MISSING_IMAGE`,
`MISSING_COORDINATES` and the `ERROR` raised for absent/empty expected
text carry neither, and carry a non-empty error message. -/
theorem result_field_invariant (cfg : ValidationConfig) (data : LoadedData)
    (w : World) (step : TestStep) :
    (((validate_step cfg data w step).1.match_result = MatchResult.PASS ∨
      (validate_step cfg data w step).1.match_result = MatchResult.FAIL) →
      ((validate_step cfg data w step).1.confidence_score).isSome = true ∧
      ((validate_step cfg data w step).1.processing_time_ms).isSome = true) ∧
    (((validate_step cfg data w step).1.match_result = MatchResult.MISSING_IMAGE ∨
      (validate_step cfg data w step).1.match_result =
        MatchResult.MISSING_COORDINATES) →
      (validate_step cfg data w step).1.confidence_score = none ∧
      (validate_step cfg data w step).1.processing_time_ms = none ∧
      ((validate_step cfg data w step).1.error_message).getD "" ≠ "") ∧
    ((dict_lookup step.expected_string_id data.expected_strings).getD "" = "" →
      (validate_step cfg data w step).1.match_result = MatchResult.ERROR ∧
      (validate_step cfg data w step).1.confidence_score = none ∧
      (validate_step cfg data w step).1.processing_time_ms = none ∧
      ((validate_step cfg data w step).1.error_message).getD "" ≠ "") := by
  simp only [validate_step]
  repeat' split
  all_goals
    refine ⟨fun h1 => ?_, fun h2 => ?_, fun h3 => ?_⟩ <;>
      simp_all [expected_msg_ne_empty, image_msg_ne_empty, coord_msg_ne_empty]

/-- Witness for C10: the invariant evaluated on a passing step, a
missing-image step, and a missing-expected-string step. -/
theorem result_field_invariant_witness :
    (((validate_step wit_cfg wit_data wit_world wit_step).1.confidence_score).isSome =
        true ∧
      ((validate_step wit_cfg wit_data wit_world wit_step).1.processing_time_ms).isSome =
        true) ∧
    ((validate_step wit_cfg wit_data wit_world_noimg wit_step).1.confidence_score =
        none ∧
      (validate_step wit_cfg wit_data wit_world_noimg wit_step).1.processing_time_ms =
        none ∧
      ((validate_step wit_cfg wit_data wit_world_noimg wit_step).1.error_message).getD
          "" ≠ "") ∧
    ((validate_step wit_cfg wit_data wit_world wit_step_missing).1.match_result =
        MatchResult.ERROR ∧
      (validate_step wit_cfg wit_data wit_world wit_step_missing).1.confidence_score =
        none ∧
      (validate_step wit_cfg wit_data wit_world wit_step_missing).1.processing_time_ms =
        none ∧
      ((validate_step wit_cfg wit_data wit_world wit_step_missing).1.error_message).getD
          "" ≠ "") := by
  refine ⟨(result_field_invariant wit_cfg wit_data wit_world wit_step).1
      (Or.inl (by decide)),
    (result_field_invariant wit_cfg wit_data wit_world_noimg wit_step).2.1
      (Or.inl (by decide)),
    (result_field_invariant wit_cfg wit_data wit_world wit_step_missing).2.2
      (by decide)⟩

/-- C5: if any of the three dataset loads fails, `validate_all` raises a
single `ValidationError` and produces no result list; and the engine's
cached datasets are cleared when the call ends, whether by success or by
failure (the second conjunct holds for every loader and world). -/
theorem load_failure_no_results_and_cache_cleared (cfg : ValidationConfig)
    (loader : Loader) (w : World)
    (hfail : (∃ e, loader.load_test_protocol = Except.error e) ∨
             (∃ e, loader.load_expected_strings = Except.error e) ∨
             (∃ e, loader.load_coordinates = Except.error e)) :
    ((validate_all cfg loader w).1).toOption = none ∧
    ∀ (loader2 : Loader) (w2 : World),
      (validate_all cfg loader2 w2).2 = empty_cache := by
  constructor
  · rcases hfail with ⟨e, he⟩ | ⟨e, he⟩ | ⟨e, he⟩
    · simp [validate_all, load_data_and_run, he, Except.toOption]
    · cases hp : loader.load_test_protocol with
      | error e2 => simp [validate_all, load_data_and_run, hp, Except.toOption]
      | ok steps => simp [validate_all, load_data_and_run, hp, he, Except.toOption]
    · cases hp : loader.load_test_protocol with
      | error e2 => simp [validate_all, load_data_and_run, hp, Except.toOption]
      | ok steps =>
        cases hs : loader.load_expected_strings with
        | error e2 =>
            simp [validate_all, load_data_and_run, hp, hs, Except.toOption]
        | ok strs =>
            simp [validate_all, load_data_and_run, hp, hs, he, Except.toOption]
  · intro loader2 w2
    simp only [validate_all, load_data_and_run, clear_cache]
    repeat' split
    all_goals rfl

/-- Witness for C5: the loader with a failing protocol load yields an
error outcome; the cache is clear after both the failing and the
successful run. -/
theorem load_failure_no_results_and_cache_cleared_witness :
    ((validate_all wit_cfg wit_loader_bad wit_world).1).toOption = none ∧
    (validate_all wit_cfg wit_loader_bad wit_world).2 = empty_cache ∧
    (validate_all wit_cfg wit_loader wit_world).2 = empty_cache := by
  have h := load_failure_no_results_and_cache_cleared wit_cfg wit_loader_bad
    wit_world (Or.inl ⟨"missing", rfl⟩)
  exact ⟨h.1, h.2 wit_loader_bad wit_world, h.2 wit_loader wit_world⟩

/-- C6: a step whose extraction raises yields a classified `ERROR` result
carrying the elapsed time, the exception's message (the underlying
message, wrapped into the `OCRError` raised by the region extractor) and
the already-resolved expected text, while every other step of the batch is
still processed and returned in order. -/
theorem extraction_failure_isolation (cfg : ValidationConfig) (loader : Loader)
    (w : World) (pre post : List TestStep) (step : TestStep)
    (strs : List (String × String))
    (coords : List ((String × String × String) × Coordinate))
    (expected : String) (region : Coordinate) (msg : String)
    (hp : loader.load_test_protocol = Except.ok (pre ++ step :: post))
    (hs : loader.load_expected_strings = Except.ok strs)
    (hc : loader.load_coordinates = Except.ok coords)
    (hexp : (dict_lookup step.expected_string_id strs).getD "" = expected)
    (hne : expected ≠ "")
    (himg : w.image_exists (image_path cfg step) = true)
    (hcoord : dict_lookup step.coordinate_key coords = some region)
    (hex : w.extract (mk_ocr_config cfg) (image_path cfg step) region =
      Except.error msg)
    (hun : w.unexpected step = none) :
    ((validate_all cfg loader w).1).map (fun rs => rs.map (fun r => r.step)) =
      Except.ok (pre ++ step :: post) ∧
    ((validate_all cfg loader w).1).map (fun rs => rs[pre.length]?) =
      Except.ok (some
        { step := step, expected_text := expected, ocr_output := ""
          match_result := MatchResult.ERROR
          processing_time_ms := some (w.elapsed step)
          error_message :=
            some ("Failed to extract text from region: " ++ msg) }) := by
  subst hexp
  have hEmp : (pre ++ step :: post).isEmpty = false := by simp
  have hrun : (validate_all cfg loader w).1 =
      Except.ok ((pre ++ step :: post).map
        (validate_all_step cfg ⟨pre ++ step :: post, strs, coords⟩ w)) := by
    simp [validate_all, load_data_and_run, hp, hs, hc, validate_all_body, hEmp]
  constructor
  · rw [hrun]
    simp [Except.map, List.map_map, Function.comp_def,
      validate_all_step_result_step]
  · rw [hrun]
    simp only [Except.map, List.map_append, List.map_cons]
    rw [List.getElem?_append_right (by simp)]
    simp only [List.length_map, Nat.sub_self, List.getElem?_cons_zero]
    simp [validate_all_step, hun, validate_step, hne, himg, hcoord,
      extract_text_from_region, hex]

/-- Witness for C6: the one-step batch whose extractor raises `"boom"`
still returns its full result list, with the `ERROR` row carrying the
elapsed 5 ms, the wrapped message, and the resolved expected text. -/
theorem extraction_failure_isolation_witness :
    ((validate_all wit_cfg wit_loader wit_world_failext).1).map
        (fun rs => rs.map (fun r => r.step)) = Except.ok [wit_step] ∧
    ((validate_all wit_cfg wit_loader wit_world_failext).1).map
        (fun rs => rs[(0 : Nat)]?) =
      Except.ok (some
        { step := wit_step, expected_text := "Hello", ocr_output := ""
          match_result := MatchResult.ERROR
          processing_time_ms := some 5
          error_message :=
            some ("Failed to extract text from region: " ++ "boom") }) :=
  extraction_failure_isolation wit_cfg wit_loader wit_world_failext [] []
    wit_step wit_strings wit_coords "Hello" wit_box "boom" rfl rfl rfl rfl
    (by decide) rfl rfl rfl rfl

/-- C7: for a non-empty results list the summary reports the pass rate
`100·p/n`, and the arithmetic mean over exactly the results whose
confidence (resp. timing) value is present — characterized by
`mean · count = sum` when some value is present and `mean = 0` when none
is; the empty list yields the all-zero summary instead of raising. -/
theorem summary_correctness (results : List ValidationResult)
    (hne : results ≠ []) :
    (get_validation_summary results).total_steps = results.length ∧
    (get_validation_summary results).passed =
      results.countP (fun r => r.match_result == MatchResult.PASS) ∧
    (get_validation_summary results).pass_rate =
      100 * (results.countP (fun r => r.match_result == MatchResult.PASS) : ℚ) /
        (results.length : ℚ) ∧
    (results.filterMap (fun r => r.confidence_score) ≠ [] →
      (get_validation_summary results).average_confidence *
          ((results.filterMap (fun r => r.confidence_score)).length : ℚ) =
        (results.filterMap (fun r => r.confidence_score)).sum) ∧
    (results.filterMap (fun r => r.confidence_score) = [] →
      (get_validation_summary results).average_confidence = 0) ∧
    (results.filterMap (fun r => r.processing_time_ms) ≠ [] →
      (get_validation_summary results).average_processing_time_ms *
          ((results.filterMap (fun r => r.processing_time_ms)).length : ℚ) =
        (results.filterMap (fun r => r.processing_time_ms)).sum) ∧
    (results.filterMap (fun r => r.processing_time_ms) = [] →
      (get_validation_summary results).average_processing_time_ms = 0) ∧
    get_validation_summary [] =
      { total_steps := 0, passed := 0, failed := 0, errors := 0
        missing_images := 0, missing_coordinates := 0
        pass_rate := 0, average_confidence := 0
        average_processing_time_ms := 0 } := by
  have hEmp : results.isEmpty = false := List.isEmpty_eq_false.mpr hne
  refine ⟨?_, ?_, ?_, ?_, ?_, ?_, ?_, rfl⟩
  · simp [get_validation_summary, hEmp]
  · simp [get_validation_summary, hEmp]
  · simp [get_validation_summary, hEmp]
    ring
  · intro hv
    have hv2 : (results.filterMap (fun r => r.confidence_score)).isEmpty = false :=
      List.isEmpty_eq_false.mpr hv
    have hlen : ((results.filterMap (fun r => r.confidence_score)).length : ℚ) ≠ 0 :=
      Nat.cast_ne_zero.mpr (List.length_pos.mpr hv).ne'
    simp [get_validation_summary, hEmp, hv2]
    exact div_mul_cancel₀ _ hlen
  · intro hv
    have hv2 : (results.filterMap (fun r => r.confidence_score)).isEmpty = true :=
      List.isEmpty_iff.mpr hv
    simp [get_validation_summary, hEmp, hv2]
  · intro hv
    have hv2 : (results.filterMap (fun r => r.processing_time_ms)).isEmpty = false :=
      List.isEmpty_eq_false.mpr hv
    have hlen : ((results.filterMap (fun r => r.processing_time_ms)).length : ℚ) ≠ 0 :=
      Nat.cast_ne_zero.mpr (List.length_pos.mpr hv).ne'
    simp [get_validation_summary, hEmp, hv2]
    exact div_mul_cancel₀ _ hlen
  · intro hv
    have hv2 : (results.filterMap (fun r => r.processing_time_ms)).isEmpty = true :=
      List.isEmpty_iff.mpr hv
    simp [get_validation_summary, hEmp, hv2]

/-- Witness for C7: a two-result list (one `PASS` with values, one `ERROR`
without) and the empty list. -/
theorem summary_correctness_witness :
    (get_validation_summary wit_results).total_steps = wit_results.length ∧
    (get_validation_summary wit_results).pass_rate =
      100 * (wit_results.countP (fun r => r.match_result == MatchResult.PASS) : ℚ) /
        (wit_results.length : ℚ) ∧
    (get_validation_summary wit_results).average_confidence *
        ((wit_results.filterMap (fun r => r.confidence_score)).length : ℚ) =
      (wit_results.filterMap (fun r => r.confidence_score)).sum ∧
    get_validation_summary [] =
      { total_steps := 0, passed := 0, failed := 0, errors := 0
        missing_images := 0, missing_coordinates := 0
        pass_rate := 0, average_confidence := 0
        average_processing_time_ms := 0 } := by
  have h := summary_correctness wit_results (by decide)
  exact ⟨h.1, h.2.2.1, h.2.2.2.1 (by decide), h.2.2.2.2.2.2.2⟩

/-- The region extractor records exactly one invocation, carrying the
derived OCR configuration, the image path and the region. -/
theorem extract_text_from_region_calls (cfg : ValidationConfig) (w : World)
    (path : String) (region : Coordinate) :
    (extract_text_from_region cfg w path region).2 =
      [⟨mk_ocr_config cfg, path, region⟩] := by
  simp only [extract_text_from_region]
  split <;> rfl

/-- The per-step trace is either empty (an early return) or the single
invocation made on the step's screenshot path with the derived OCR
configuration. -/
theorem validate_step_calls_eq (cfg : ValidationConfig) (data : LoadedData)
    (w : World) (step : TestStep) :
    (validate_step cfg data w step).2 = [] ∨
    ∃ region, (validate_step cfg data w step).2 =
      [⟨mk_ocr_config cfg, image_path cfg step, region⟩] := by
  simp only [validate_step]
  split
  · exact Or.inl rfl
  · split
    · exact Or.inl rfl
    · split
      · exact Or.inl rfl
      · rename_i region heq
        right
        refine ⟨region, ?_⟩
        have hcalls := extract_text_from_region_calls cfg w (image_path cfg step)
          region
        rcases hE : extract_text_from_region cfg w (image_path cfg step) region
          with ⟨res, calls⟩
        rw [hE] at hcalls
        simp only at hcalls
        cases res with
        | error msg => simpa using hcalls
        | ok r => obtain ⟨a, b⟩ := r; simpa using hcalls

/-- Every extractor invocation recorded by the per-step algorithm carries
the OCR configuration derived from the engine configuration and the
conventional screenshot path. -/
theorem validate_step_calls_shape (cfg : ValidationConfig) (data : LoadedData)
    (w : World) (step : TestStep) (call : ExtractCall)
    (hc : call ∈ (validate_step cfg data w step).2) :
    call.ocr_config = mk_ocr_config cfg ∧ call.path = image_path cfg step := by
  rcases validate_step_calls_eq cfg data w step with h | ⟨region, h⟩
  · rw [h] at hc
    simp at hc
  · rw [h] at hc
    simp at hc
    subst hc
    exact ⟨rfl, rfl⟩

/-- C8 (counterexample): under the hyphen-less locale tag `"fr"`, the
happy path's one extractor invocation carries OCR base language `"eng"`,
not the tag's primary subtag `"fr"` — the claim fails as stated. -/
theorem ocr_language_counterexample :
    (validate_step wit_cfg_fr wit_data wit_world wit_step).2.map
        (fun call => call.ocr_config.language) = ["eng"] ∧
    primary_subtag wit_cfg_fr.language = "fr" ∧
    ("eng" : String) ≠ "fr" := by
  refine ⟨by decide, rfl, by decide⟩

/-- C8 (amended): every extractor invocation uses as OCR base language the
primary subtag of the configured locale tag when the tag contains a
hyphen, and the fixed default `"eng"` otherwise; the configuration's
preprocessing flag is carried in both cases. -/
theorem ocr_language_amended (cfg : ValidationConfig) (data : LoadedData)
    (w : World) (step : TestStep) (call : ExtractCall)
    (hc : call ∈ (validate_step cfg data w step).2) :
    (str_contains cfg.language '-' = true →
      call.ocr_config.language = primary_subtag cfg.language) ∧
    (str_contains cfg.language '-' = false →
      call.ocr_config.language = "eng") ∧
    call.ocr_config.preprocessing_enabled = cfg.enable_preprocessing := by
  obtain ⟨hcfg, -⟩ := validate_step_calls_shape cfg data w step call hc
  rw [hcfg]
  refine ⟨fun hh => ?_, fun hh => ?_, ?_⟩
  · simp [mk_ocr_config, split_head, primary_subtag, hh]
  · simp [mk_ocr_config, hh]
  · simp [mk_ocr_config]

/-- Witness for the amended C8: under the default tag `"en-US"` the happy
path's invocation carries language `"en"`, the tag's primary subtag, and
the configuration's preprocessing flag. -/
theorem ocr_language_amended_witness :
    wit_call.ocr_config.language = primary_subtag wit_cfg.language ∧
    wit_call.ocr_config.preprocessing_enabled = wit_cfg.enable_preprocessing := by
  have h := ocr_language_amended wit_cfg wit_data wit_world wit_step wit_call
    (by decide)
  exact ⟨h.1 (by decide), h.2.2⟩

/-- Looking up a key right after inserting it yields the inserted value. -/
theorem dict_lookup_insert_self {α β : Type} [DecidableEq α]
    (m : List (α × β)) (k : α) (v : β) :
    dict_lookup k (dict_insert m k v) = some v := by
  induction m with
  | nil => simp [dict_insert, dict_lookup]
  | cons p rest ih =>
    obtain ⟨k', v'⟩ := p
    by_cases h : k' = k
    · subst h
      simp [dict_insert, dict_lookup]
    · simp [dict_insert, dict_lookup, h, ih]

/-- Inserting under a different key leaves a lookup unchanged. -/
theorem dict_lookup_insert_ne {α β : Type} [DecidableEq α]
    (m : List (α × β)) (k k' : α) (v : β) (h : k' ≠ k) :
    dict_lookup k (dict_insert m k' v) = dict_lookup k m := by
  induction m with
  | nil => simp [dict_insert, dict_lookup, h]
  | cons p rest ih =>
    obtain ⟨k2, v2⟩ := p
    by_cases h2 : k2 = k'
    · subst h2
      simp [dict_insert, dict_lookup, h]
    · simp [dict_insert, dict_lookup, h2, ih]

/-- An insert never empties the map. -/
theorem dict_insert_ne_nil {α β : Type} [DecidableEq α]
    (m : List (α × β)) (k : α) (v : β) : dict_insert m k v ≠ [] := by
  cases m with
  | nil => simp [dict_insert]
  | cons p rest =>
    obtain ⟨k', v'⟩ := p
    by_cases h : k' = k <;> simp [dict_insert, h]

/-- Folding rows none of which parses to key `k` does not change the
lookup at `k`. -/
theorem coord_fold_preserves_lookup (k : String × String × String) :
    ∀ (xs : List CoordRow) (acc : List ((String × String × String) × Coordinate)),
      (∀ r ∈ xs, ∀ c, parse_coordinate_row r ≠ some (k, c)) →
      dict_lookup k (xs.foldl coord_fold_step acc) = dict_lookup k acc := by
  intro xs
  induction xs with
  | nil => intro acc h; rfl
  | cons r rest ih =>
    intro acc hxs
    have hr := hxs r (by simp)
    have hrest : ∀ r2 ∈ rest, ∀ c, parse_coordinate_row r2 ≠ some (k, c) :=
      fun r2 hmem c => hxs r2 (by simp [hmem]) c
    rw [List.foldl_cons, ih _ hrest]
    unfold coord_fold_step
    cases hp : parse_coordinate_row r with
    | none => rfl
    | some kv =>
      obtain ⟨k2, c2⟩ := kv
      have hk : k2 ≠ k := by
        intro hkk
        subst hkk
        exact hr c2 hp
      exact dict_lookup_insert_ne acc k k2 c2 hk

/-- Folding rows over a non-empty map keeps it non-empty. -/
theorem coord_fold_ne_nil :
    ∀ (xs : List CoordRow) (acc : List ((String × String × String) × Coordinate)),
      acc ≠ [] → xs.foldl coord_fold_step acc ≠ [] := by
  intro xs
  induction xs with
  | nil => intro acc h; exact h
  | cons r rest ih =>
    intro acc hacc
    rw [List.foldl_cons]
    apply ih
    unfold coord_fold_step
    cases hp : parse_coordinate_row r with
    | none => exact hacc
    | some kv =>
      obtain ⟨k2, c2⟩ := kv
      exact dict_insert_ne_nil acc k2 c2

/-- C9: when two valid rows of the coordinate table share the same
composite key, the loaded index maps that key to the later row's bounding
box (last-write-wins), and the duplicate key never makes the load fail
(later rows may follow as long as none of them carries the same key). -/
theorem coordinates_last_write_wins (l m rest : List CoordRow)
    (r1 r2 : CoordRow) (k : String × String × String) (c1 c2 : Coordinate)
    (h1 : parse_coordinate_row r1 = some (k, c1))
    (h2 : parse_coordinate_row r2 = some (k, c2))
    (hrest : ∀ r ∈ rest, ∀ c, parse_coordinate_row r ≠ some (k, c)) :
    (load_coordinates (l ++ r1 :: m ++ r2 :: rest)).map
        (fun coords => dict_lookup k coords) = Except.ok (some c2) := by
  have hfold : dict_lookup k
      ((l ++ r1 :: m ++ r2 :: rest).foldl coord_fold_step []) = some c2 := by
    rw [List.foldl_append, List.foldl_cons, List.foldl_append, List.foldl_cons]
    rw [coord_fold_preserves_lookup k rest _ hrest]
    unfold coord_fold_step
    rw [h2]
    exact dict_lookup_insert_self _ k c2
  have hnn : (l ++ r1 :: m ++ r2 :: rest).foldl coord_fold_step [] ≠ [] := by
    rw [List.foldl_append, List.foldl_cons, List.foldl_append, List.foldl_cons]
    apply coord_fold_ne_nil
    unfold coord_fold_step
    rw [h2]
    exact dict_insert_ne_nil _ k c2
  have hEmp : ((l ++ r1 :: m ++ r2 :: rest).foldl coord_fold_step []).isEmpty =
      false := List.isEmpty_eq_false.mpr hnn
  simp only [load_coordinates, hEmp, Bool.false_eq_true, if_false, Except.map]
  rw [hfold]

/-- Witness for C9: the two-row table whose rows share key
`("a", "b", "c")` loads successfully and retains the later row's box
`(1, 1, 5, 5)`. -/
theorem coordinates_last_write_wins_witness :
    (load_coordinates [wit_row1, wit_row2]).map
        (fun coords => dict_lookup ("a", "b", "c") coords) =
      Except.ok (some ⟨1, 1, 5, 5⟩) :=
  coordinates_last_write_wins [] [] [] wit_row1 wit_row2 ("a", "b", "c")
    ⟨0, 0, 10, 10⟩ ⟨1, 1, 5, 5⟩ (by decide) (by decide) (by simp)

end OCRVal
